import Mathlib

/-!
Verification of the blog web application in main.py: identity and access
policy, the content data model (users, blog posts, comments) and the
request handlers, embedded shallowly as state-passing functions.

Conventions of the embedding:
* The relational store (three tables plus autoincrement counters) is a
  `DBState`; every handler takes the state and returns the observable
  outcome together with the successor state.
* A form submission is modelled by the request method plus a flag for
  field-level validity; `validate_on_submit` combines them exactly as
  flask-wtf does (true only on a POST whose fields validate).
* Flash messages are an enumeration; two flashes are the same observable
  message iff the source flashes the same string literal.
* Unhandled exceptions that would surface as a 500 response are the
  `Response.serverError` outcome, carrying the exception description.
-/

namespace Blog2

/-- Request methods relevant to the routes of main.py. -/
inductive Method where
  | GET : Method
  | POST : Method
deriving DecidableEq, Repr

/-- The identity bound to the request context by flask-login:
either the anonymous sentinel or an authenticated user id. -/
inductive Identity where
  | anonymous : Identity
  | authenticated (id : Nat) : Identity
deriving DecidableEq, Repr

/-- The user id carried by an identity, none for the anonymous sentinel. -/
def identityId : Identity → Option Nat
  | Identity.anonymous => none
  | Identity.authenticated i => some i

/-- Modelled from the spec: the werkzeug password credential
(generate_password_hash with pbkdf2 sha256 and a per-call random salt) is
not part of this repository. Per the spec the credential embeds the salt
together with a deterministic digest of password and salt. -/
structure Credential where
  salt : String
  digest : Nat
deriving DecidableEq, Repr

/-- Modelled from the spec: a deterministic one-way mixing of password and
salt standing in for the pbkdf2 digest; only determinism in the pair
(password, salt) is relied on. -/
def pbkdf2_digest (pw salt : String) : Nat :=
  (salt ++ ":" ++ pw).toList.foldl (fun h c => (h * 131 + c.toNat) % 2 ^ 64) 5381

/-- Modelled from the spec: hashing a password with an explicit salt; the
source draws the salt at random per call (salt_length 8), the embedding
makes it a parameter. -/
def generate_password_hash (pw : String) (salt : String) : Credential :=
  { salt := salt, digest := pbkdf2_digest pw salt }

/-- Modelled from the spec: verification recomputes the digest from the
salt embedded in the credential and compares. Argument order follows the
source calls: stored credential first, candidate password second. -/
def check_password_hash (cred : Credential) (pw : String) : Bool :=
  cred.digest == pbkdf2_digest pw cred.salt

/-- Row of the users table (main.py class User): unique id, unique email,
stored password credential, display name. -/
structure User where
  id : Nat
  email : String
  password : Credential
  name : String
deriving DecidableEq, Repr

/-- Row of the blog_posts table (main.py class BlogPost). The author
foreign key column has no not-null constraint in the source, hence
`Option Nat`. -/
structure BlogPost where
  id : Nat
  author_id : Option Nat
  title : String
  subtitle : String
  date : String
  body : String
  img_url : String
deriving DecidableEq, Repr

/-- Row of the comments table (main.py class Comment). Both foreign key
columns (author_id, blog_post_id) lack a not-null constraint in the
source, hence `Option Nat`. -/
structure Comment where
  id : Nat
  author_id : Option Nat
  blog_post_id : Option Nat
  text : String
deriving DecidableEq, Repr

/-- The relational store: the three tables and the autoincrement counters
for their integer primary keys (SQLite starts them at 1). -/
structure DBState where
  users : List User
  blog_posts : List BlogPost
  comments : List Comment
  nextUserId : Nat
  nextPostId : Nat
  nextCommentId : Nat
deriving DecidableEq, Repr

/-- The empty store produced by db.create_all() on a fresh database. -/
def initialState : DBState :=
  { users := [], blog_posts := [], comments := [],
    nextUserId := 1, nextPostId := 1, nextCommentId := 1 }

/-- Flashed messages, one constructor per distinct string literal flashed
in main.py. Both failure branches of login flash the identical literal, so
they share the single constructor `loginInvalidCredentials`. -/
inductive Flash where
  | registerSuccess : Flash
  | registerDuplicateEmail : Flash
  | loginInvalidCredentials : Flash
deriving DecidableEq, Repr

/-- Observable outcome of a handler: a rendered template, a redirect to an
endpoint, an abort with an HTTP status code, or an unhandled exception
surfacing as a 500 server error. -/
inductive Response where
  | render (template : String) : Response
  | redirect (endpoint : String) : Response
  | httpAbort (code : Nat) : Response
  | serverError (exc : String) : Response
deriving DecidableEq, Repr

/-- Result of a store-writing handler: flashed messages, the response, and
the successor store state. -/
structure HandlerResult where
  flashes : List Flash
  response : Response
  state : DBState
deriving DecidableEq, Repr

/-- Result of the login handler: flashed messages, the response, and the
identity established in the session (none when no login_user call ran).
The login handler never writes the store. -/
structure LoginResult where
  flashes : List Flash
  response : Response
  session : Option Nat
deriving DecidableEq, Repr

/-- The flask-wtf form.validate_on_submit(): true exactly when the request
is a POST and the form fields validate. -/
def validate_on_submit (m : Method) (fieldsValid : Bool) : Bool :=
  m == Method.POST && fieldsValid

/-- Outcome of a decorator guard: either the request was aborted before
the wrapped handler ran, or the wrapped handler ran and produced a value.
The forbidden constructor carries no application of the wrapped function:
a guarded operation is provably not invoked on that path. -/
inductive GuardResult (α : Type) where
  | forbidden : GuardResult α
  | invoked (a : α) : GuardResult α
deriving DecidableEq, Repr

/-- The admin_required decorator of main.py: abort(403) when the current
identity is anonymous, run the wrapped handler when its id equals 1,
abort(403) otherwise. -/
def admin_required {α : Type} (current_user : Identity) (func : Unit → α) :
    GuardResult α :=
  match current_user with
  | Identity.anonymous => GuardResult.forbidden
  | Identity.authenticated i =>
      if i == 1 then GuardResult.invoked (func ()) else GuardResult.forbidden

/-- The response of a guard outcome: the 403 page for forbidden, the
wrapped handler response otherwise. -/
def guardResponse (g : GuardResult HandlerResult) (s : DBState) : HandlerResult :=
  match g with
  | GuardResult.forbidden => { flashes := [], response := Response.httpAbort 403, state := s }
  | GuardResult.invoked r => r

/-- Handler of GET,POST /register (main.py register): on a validated
submission, look the email up; when absent, insert a new user with the
hashed credential and flash the success notice; when present, flash the
duplicate notice and change nothing; both branches redirect to login. -/
def register (s : DBState) (m : Method) (fieldsValid : Bool)
    (email pw name salt : String) : HandlerResult :=
  if validate_on_submit m fieldsValid then
    match s.users.find? (fun u => u.email == email) with
    | none =>
        let new_user : User :=
          { id := s.nextUserId, email := email,
            password := generate_password_hash pw salt, name := name }
        { flashes := [Flash.registerSuccess],
          response := Response.redirect "login",
          state := { s with users := s.users ++ [new_user],
                            nextUserId := s.nextUserId + 1 } }
    | some _ =>
        { flashes := [Flash.registerDuplicateEmail],
          response := Response.redirect "login",
          state := s }
  else
    { flashes := [], response := Response.render "register.html", state := s }

/-- Handler of GET,POST /login (main.py login): unknown email flashes the
invalid-credentials notice and redirects back to login; known email with a
failing password check flashes the identical notice and redirects back;
a passing check establishes the session and redirects to the post list. -/
def login (s : DBState) (m : Method) (fieldsValid : Bool)
    (email pw : String) : LoginResult :=
  if validate_on_submit m fieldsValid then
    match s.users.find? (fun u => u.email == email) with
    | none =>
        { flashes := [Flash.loginInvalidCredentials],
          response := Response.redirect "login", session := none }
    | some user =>
        if check_password_hash user.password pw then
          { flashes := [], response := Response.redirect "get_all_posts",
            session := some user.id }
        else
          { flashes := [Flash.loginInvalidCredentials],
            response := Response.redirect "login", session := none }
  else
    { flashes := [], response := Response.render "login.html", session := none }

/-- Handler of GET,POST /post/<id> (main.py show_post): no authentication
check is performed. On a validated submission the comment author is set to
current_user; for the Anonymous identity that assignment raises in the ORM
(the anonymous sentinel is not a mapped User instance), so the request
dies with an unhandled 500 before db.session.add runs and no row is
stored. For an authenticated identity a comment is inserted whose author
reference is that id and whose parent reference is the looked-up post
(absent when the id is unknown), then the handler redirects back to the
post page. -/
def show_post (s : DBState) (current_user : Identity) (post_id : Nat)
    (m : Method) (fieldsValid : Bool) (text : String) : HandlerResult :=
  let requested_post := s.blog_posts.find? (fun p => p.id == post_id)
  if validate_on_submit m fieldsValid then
    match current_user with
    | Identity.anonymous =>
        { flashes := [],
          response := Response.serverError "AttributeError: AnonymousUserMixin has no _sa_instance_state",
          state := s }
    | Identity.authenticated i =>
        let new_comment : Comment :=
          { id := s.nextCommentId, author_id := some i,
            blog_post_id := (requested_post.map (fun p => p.id)), text := text }
        { flashes := [],
          response := Response.redirect "show_post",
          state := { s with comments := s.comments ++ [new_comment],
                            nextCommentId := s.nextCommentId + 1 } }
  else
    { flashes := [], response := Response.render "post.html", state := s }

/-- Handler of GET,POST /new-post (main.py add_new_post). The source
registers no admin_required decorator on this route, so no access check
occurs here. On a validated submission the BlogPost constructor sets
author to current_user; for the Anonymous identity that assignment raises
in the ORM (the anonymous sentinel is not a mapped User instance), so the
request dies with an unhandled 500 before any insert or constraint check.
For an authenticated identity the post is inserted with that id as
author; the unique constraint on the title column makes the commit raise
an IntegrityError when the title already exists, surfacing as an
unhandled 500 with the store unchanged. -/
def add_new_post (s : DBState) (current_user : Identity)
    (m : Method) (fieldsValid : Bool)
    (title subtitle body img_url today : String) : HandlerResult :=
  if validate_on_submit m fieldsValid then
    match current_user with
    | Identity.anonymous =>
        { flashes := [],
          response := Response.serverError "AttributeError: AnonymousUserMixin has no _sa_instance_state",
          state := s }
    | Identity.authenticated i =>
        if s.blog_posts.any (fun p => p.title == title) then
          { flashes := [],
            response := Response.serverError "IntegrityError: UNIQUE constraint failed: blog_posts.title",
            state := s }
        else
          let new_post : BlogPost :=
            { id := s.nextPostId, author_id := some i,
              title := title, subtitle := subtitle, date := today,
              body := body, img_url := img_url }
          { flashes := [],
            response := Response.redirect "get_all_posts",
            state := { s with blog_posts := s.blog_posts ++ [new_post],
                              nextPostId := s.nextPostId + 1 } }
  else
    { flashes := [], response := Response.render "make-post.html", state := s }

/-- Handler body of GET /edit-post/<id> (main.py edit_post, inside the
admin_required guard): an unknown id crashes (attribute access on None);
otherwise the edit form is prefilled and, when validate_on_submit holds,
the post row is mutated and the handler redirects; else it renders. -/
def edit_post (s : DBState) (post_id : Nat) (m : Method) (fieldsValid : Bool)
    (title subtitle img_url body : String) (author : Option Nat) : HandlerResult :=
  match s.blog_posts.find? (fun p => p.id == post_id) with
  | none =>
      { flashes := [],
        response := Response.serverError "AttributeError: NoneType has no attribute title",
        state := s }
  | some _ =>
      if validate_on_submit m fieldsValid then
        { flashes := [],
          response := Response.redirect "show_post",
          state := { s with blog_posts := s.blog_posts.map (fun p =>
            if p.id == post_id then
              { p with title := title, subtitle := subtitle,
                       img_url := img_url, author_id := author, body := body }
            else p) } }
      else
        { flashes := [], response := Response.render "make-post.html",
          state := s }

/-- Handler body of GET /delete/<id> (main.py delete_post, inside the
admin_required guard): an unknown id makes db.session.delete(None) raise,
surfacing as an unhandled 500 with the store unchanged; otherwise the post
row is deleted — the ORM relationship has no delete cascade, so dependent
comment rows survive with their blog_post_id foreign key nullified — and
the handler redirects to the post list. -/
def delete_post (s : DBState) (post_id : Nat) : HandlerResult :=
  match s.blog_posts.find? (fun p => p.id == post_id) with
  | none =>
      { flashes := [],
        response := Response.serverError "UnmappedInstanceError: db.session.delete(None)",
        state := s }
  | some _ =>
      { flashes := [],
        response := Response.redirect "get_all_posts",
        state := { s with
          blog_posts := s.blog_posts.filter (fun p => !(p.id == post_id)),
          comments := s.comments.map (fun c =>
            if c.blog_post_id == some post_id then { c with blog_post_id := none }
            else c) } }

/-- Methods accepted by the /new-post route registration. -/
def new_post_methods : List Method := [Method.GET, Method.POST]

/-- Methods accepted by the /edit-post/<id> route registration: the source
passes no methods argument, so flask registers GET only. -/
def edit_post_methods : List Method := [Method.GET]

/-- Methods accepted by the /delete/<id> route registration. -/
def delete_post_methods : List Method := [Method.GET]

/-- One inbound request to a store-writing route, with all data the
handler reads from it. Routes registered GET-only carry no method. -/
inductive Op where
  | opRegister (m : Method) (fieldsValid : Bool) (email pw name salt : String) : Op
  | opShowPost (cu : Identity) (post_id : Nat) (m : Method) (fieldsValid : Bool) (text : String) : Op
  | opAddNewPost (cu : Identity) (m : Method) (fieldsValid : Bool) (title subtitle body img_url today : String) : Op
  | opEditPost (cu : Identity) (post_id : Nat) (fieldsValid : Bool) (title subtitle img_url body : String) (author : Option Nat) : Op
  | opDeletePost (cu : Identity) (post_id : Nat) : Op
deriving DecidableEq, Repr

/-- Successor store state of one request: guarded routes go through
admin_required (a forbidden outcome leaves the store untouched), the rest
run their handler directly, exactly as registered in main.py. -/
def applyOp (s : DBState) (op : Op) : DBState :=
  match op with
  | Op.opRegister m fv e pw n salt => (register s m fv e pw n salt).state
  | Op.opShowPost cu pid m fv t => (show_post s cu pid m fv t).state
  | Op.opAddNewPost cu m fv t sub b iu d => (add_new_post s cu m fv t sub b iu d).state
  | Op.opEditPost cu pid fv t sub iu b a =>
      (guardResponse (admin_required cu (fun _ => edit_post s pid Method.GET fv t sub iu b a)) s).state
  | Op.opDeletePost cu pid =>
      (guardResponse (admin_required cu (fun _ => delete_post s pid)) s).state

/-- Store states reachable from the fresh database through requests. -/
inductive Reachable : DBState → Prop where
  | init : Reachable initialState
  | step {s : DBState} (op : Op) : Reachable s → Reachable (applyOp s op)

/-- Pairwise distinctness of the titles in the blog_posts table. -/
def uniqueTitles (s : DBState) : Prop :=
  s.blog_posts.Pairwise (fun p q => p.title ≠ q.title)

/-- Number of posts carrying a given title. -/
def countTitle (s : DBState) (t : String) : Nat :=
  (s.blog_posts.filter (fun p => p.title == t)).length

/-- Referential integrity of the comments table: every comment row has a
non-null author_id naming an existing user and a non-null blog_post_id
naming an existing post. -/
def commentRefsOk (s : DBState) : Bool :=
  s.comments.all (fun c =>
    (match c.author_id with
     | some a => s.users.any (fun u => u.id == a)
     | none => false) &&
    (match c.blog_post_id with
     | some p => s.blog_posts.any (fun q => q.id == p)
     | none => false))

/-! Concrete fixtures used to evaluate the handlers on closed inputs. -/

/-- User row for Alice, id 1 (the designated administrator id). -/
def alice : User :=
  { id := 1, email := "alice@x.com", password := { salt := "s", digest := 0 },
    name := "Alice" }

/-- User row for Bob, id 2, an authenticated non-admin. -/
def bob : User :=
  { id := 2, email := "bob@x.com", password := { salt := "t", digest := 0 },
    name := "Bob" }

/-- Post row with id 1 authored by user 1. -/
def postOne : BlogPost :=
  { id := 1, author_id := some 1, title := "Hello World", subtitle := "S",
    date := "October 12, 2025", body := "B", img_url := "img.png" }

/-- Store with users 1 and 2 and no posts or comments. -/
def twoUserState : DBState :=
  { users := [alice, bob], blog_posts := [], comments := [],
    nextUserId := 3, nextPostId := 1, nextCommentId := 1 }

/-- Store with user 1 and post 1 and no comments. -/
def onePostState : DBState :=
  { users := [alice], blog_posts := [postOne], comments := [],
    nextUserId := 2, nextPostId := 2, nextCommentId := 1 }

/-- Comment row with id 1 by user 1 on post 1. -/
def hiComment : Comment :=
  { id := 1, author_id := some 1, blog_post_id := some 1, text := "hi" }

/-- Store with user 1, post 1 and one comment by user 1 on post 1. -/
def commentedState : DBState :=
  { users := [alice], blog_posts := [postOne],
    comments := [hiComment],
    nextUserId := 2, nextPostId := 2, nextCommentId := 2 }

/-- User row for Carol with an actually derived credential, for exercising
the password check. -/
def carol : User :=
  { id := 1, email := "c@x", password := generate_password_hash "a" "b",
    name := "C" }

/-- Store holding only Carol. -/
def carolState : DBState :=
  { users := [carol], blog_posts := [], comments := [],
    nextUserId := 2, nextPostId := 1, nextCommentId := 1 }

/-- User row expected from registering Dora into the two-user store. -/
def dora : User :=
  { id := 3, email := "dora@x.com",
    password := generate_password_hash "pw" "s3", name := "Dora" }

/-- Request registering Alice, who receives user id 1. -/
def registerAliceOp : Op :=
  Op.opRegister Method.POST true "alice@x.com" "pw" "Alice" "sA"

/-- Request by the authenticated user 1 creating a post titled Hello
World. -/
def helloOp : Op :=
  Op.opAddNewPost (Identity.authenticated 1) Method.POST true
    "Hello World" "S" "B" "I" "October 12, 2025"

/-- Store reached from the fresh database by registering Alice and then
one validated new-post submission titled Hello World by her identity. -/
def helloState : DBState :=
  applyOp (applyOp initialState registerAliceOp) helloOp

/-- The post row inserted by helloOp. -/
def helloPost : BlogPost :=
  { id := 1, author_id := some 1, title := "Hello World", subtitle := "S",
    date := "October 12, 2025", body := "B", img_url := "I" }

/-! Theorems. -/

/-- C1: the claim fails on the source as a slip of the code. The /new-post
route is registered without the admin_required decorator, so no admin
check runs: a validated POST by the authenticated non-admin user 2
inserts a blog post and redirects to the post list instead of being
refused with 403; a validated POST by the anonymous identity dies with
the unhandled ORM error at the BlogPost constructor — again not a 403 —
and inserts nothing. -/
theorem new_post_route_lacks_admin_guard :
    (add_new_post twoUserState (Identity.authenticated 2) Method.POST true
        "T" "Sub" "Body" "img.png" "October 12, 2025").response
      = Response.redirect "get_all_posts" ∧
    (add_new_post twoUserState (Identity.authenticated 2) Method.POST true
        "T" "Sub" "Body" "img.png" "October 12, 2025").state.blog_posts.length = 1 ∧
    (add_new_post twoUserState Identity.anonymous Method.POST true
        "T" "Sub" "Body" "img.png" "October 12, 2025").response
      = Response.serverError "AttributeError: AnonymousUserMixin has no _sa_instance_state" ∧
    (add_new_post twoUserState Identity.anonymous Method.POST true
        "T" "Sub" "Body" "img.png" "October 12, 2025").response
      ≠ Response.httpAbort 403 ∧
    (add_new_post twoUserState Identity.anonymous Method.POST true
        "T" "Sub" "Body" "img.png" "October 12, 2025").state = twoUserState := by
  decide

/-- C2: the claim fails on the source as a slip of the code. The show_post
handler performs no authentication check: a validated comment submission
under the Anonymous identity on the existing post 1 dies with the
unhandled ORM error raised when the anonymous sentinel is assigned as the
comment author — a 500, not a distinct Unauthenticated outcome — storing
no comment; the same submission by the authenticated user 1 does store a
comment authored by that user. -/
theorem anonymous_comment_request_crashes :
    (show_post onePostState Identity.anonymous 1 Method.POST true "nice post").response
      = Response.serverError "AttributeError: AnonymousUserMixin has no _sa_instance_state" ∧
    (show_post onePostState Identity.anonymous 1 Method.POST true "nice post").state
      = onePostState ∧
    (show_post onePostState (Identity.authenticated 1) 1 Method.POST true "nice post").state.comments
      = [{ id := 1, author_id := some 1, blog_post_id := some 1, text := "nice post" }] := by
  decide

/-- C3 counterexample: the referential invariant of the comments table is
not preserved by every operation. It holds in the concrete store with user
1, post 1 and a comment by user 1 on post 1, and fails after the admin
deletes post 1, because the surviving comment row has its parent-post
reference nullified. -/
theorem comment_refs_not_preserved_by_delete :
    commentRefsOk commentedState = true ∧
    commentRefsOk (applyOp commentedState
      (Op.opDeletePost (Identity.authenticated 1) 1)) = false := by
  decide

/-- C4: the claim fails on the source as a slip of the code. On a store
without post 1, the delete_post handler body passes None to
db.session.delete, which raises instead of producing a NotFound outcome,
leaving the store unchanged; on a store holding post 1 it removes the post
and redirects to the post list. -/
theorem delete_post_crashes_on_missing_id :
    (delete_post initialState 1).response
      = Response.serverError "UnmappedInstanceError: db.session.delete(None)" ∧
    (delete_post initialState 1).state = initialState ∧
    (delete_post onePostState 1).response = Response.redirect "get_all_posts" ∧
    (delete_post onePostState 1).state.blog_posts = [] := by
  decide

/-- C7: the admin_required guard runs the wrapped handler exactly when the
identity is authenticated with id 1; in every other case the guard result
is forbidden — independent of the wrapped handler, which is therefore not
invoked — and the dispatched response is the 403 abort with the store
untouched. -/
theorem admin_required_grants_iff (u : Identity) (f : Unit → HandlerResult) :
    ((u ≠ Identity.anonymous ∧ identityId u = some 1) ∧
      admin_required u f = GuardResult.invoked (f ())) ∨
    (¬(u ≠ Identity.anonymous ∧ identityId u = some 1) ∧
      (∀ (g : Unit → HandlerResult), admin_required u g = GuardResult.forbidden) ∧
      ∀ (s : DBState),
        (guardResponse (admin_required u f) s).response = Response.httpAbort 403 ∧
        (guardResponse (admin_required u f) s).state = s) := by
  cases u with
  | anonymous =>
      right
      refine ⟨by simp, fun g => rfl, fun s => ⟨rfl, rfl⟩⟩
  | authenticated i =>
      by_cases h : i = 1
      · left
        subst h
        exact ⟨⟨by simp, rfl⟩, rfl⟩
      · right
        refine ⟨?_, ?_, ?_⟩
        · intro hcon
          exact h (by simpa [identityId] using hcon.2)
        · intro g
          simp [admin_required, h]
        · intro s
          simp [admin_required, guardResponse, h]

/-- C3 (amended): the source neither cascades nor rejects the deletion of
a commented post. Deleting an existing post leaves every comment row that
referenced it in the store with its parent-post reference nullified, while
no post with the deleted id remains: a comment outlives its parent post
with a null parent reference. -/
theorem delete_post_orphans_dependent_comments (s : DBState) (pid : Nat)
    (c : Comment) (hc : c ∈ s.comments) (hcp : c.blog_post_id = some pid)
    (hp : ∃ p ∈ s.blog_posts, p.id = pid) :
    { c with blog_post_id := none } ∈ (delete_post s pid).state.comments ∧
    ∀ q ∈ (delete_post s pid).state.blog_posts, q.id ≠ pid := by
  obtain ⟨p, hpm, hpid⟩ := hp
  have hfind : s.blog_posts.find? (fun r => r.id == pid) ≠ none := by
    intro hn
    have := List.find?_eq_none.mp hn p hpm
    simp [hpid] at this
  obtain ⟨q0, hq0⟩ : ∃ q0, s.blog_posts.find? (fun r => r.id == pid) = some q0 := by
    cases hfq : s.blog_posts.find? (fun r => r.id == pid) with
    | none => exact absurd hfq hfind
    | some q0 => exact ⟨q0, rfl⟩
  constructor
  · have hm := List.mem_map_of_mem
      (fun d => if d.blog_post_id == some pid then { d with blog_post_id := none } else d) hc
    simp only [delete_post, hq0]
    simpa [hcp] using hm
  · intro q hq
    simp only [delete_post, hq0] at hq
    have hq2 := (List.mem_filter.mp hq).2
    simpa using hq2

/-- C3 (amended) witness: the concrete store with one comment on post 1,
before and after the deletion of post 1. -/
theorem delete_post_orphans_dependent_comments_witness :
    (hiComment ∈ commentedState.comments ∧
      hiComment.blog_post_id = some 1 ∧
      ∃ p ∈ commentedState.blog_posts, p.id = 1) ∧
    ({ hiComment with blog_post_id := none }
        ∈ (delete_post commentedState 1).state.comments ∧
      ∀ q ∈ (delete_post commentedState 1).state.blog_posts, q.id ≠ 1) :=
  ⟨⟨by decide, by decide, by decide⟩,
   delete_post_orphans_dependent_comments commentedState 1 hiComment
     (by decide) (by decide) (by decide)⟩

/-- C5: the login handler fails identically on an unknown email and on a
known email whose password check fails: both produce the same single
invalid-credentials flash (one and the same string literal in the
source), redirect back to login and establish no session, revealing
nothing about which of the two cases occurred. -/
theorem login_uniform_invalid_credentials (s : DBState) (e1 p1 e2 p2 : String)
    (u : User)
    (h1 : ∀ v ∈ s.users, v.email ≠ e1)
    (h2 : s.users.find? (fun v => v.email == e2) = some u)
    (h3 : check_password_hash u.password p2 = false) :
    login s Method.POST true e1 p1 = login s Method.POST true e2 p2 ∧
    login s Method.POST true e1 p1 =
      { flashes := [Flash.loginInvalidCredentials],
        response := Response.redirect "login", session := none } := by
  have h1f : s.users.find? (fun v => v.email == e1) = none := by
    apply List.find?_eq_none.mpr
    intro v hv
    simpa using h1 v hv
  constructor <;> simp [login, validate_on_submit, h1f, h2, h3]

/-- C5 witness: the store holding only Carol; an unknown email versus
Carol's email with a wrong password. -/
theorem login_uniform_invalid_credentials_witness :
    ((∀ v ∈ carolState.users, v.email ≠ "z@x") ∧
      carolState.users.find? (fun v => v.email == "c@x") = some carol ∧
      check_password_hash carol.password "w" = false) ∧
    (login carolState Method.POST true "z@x" "q"
        = login carolState Method.POST true "c@x" "w" ∧
      login carolState Method.POST true "z@x" "q" =
        { flashes := [Flash.loginInvalidCredentials],
          response := Response.redirect "login", session := none }) :=
  ⟨⟨by decide, by decide, by decide⟩,
   login_uniform_invalid_credentials carolState "z@x" "q" "c@x" "w" carol
     (by decide) (by decide) (by decide)⟩

/-- C6: registering with an already-present email flashes the duplicate
notice, redirects to login and leaves the store unchanged (so no duplicate
user row appears); registering with a fresh email appends exactly one new
user row carrying that email and the salted hash of the password. -/
theorem register_duplicate_email_rejected (s : DBState) (e pw n salt : String) :
    ((∃ u ∈ s.users, u.email = e) →
      register s Method.POST true e pw n salt =
        { flashes := [Flash.registerDuplicateEmail],
          response := Response.redirect "login", state := s }) ∧
    ((∀ u ∈ s.users, u.email ≠ e) →
      (register s Method.POST true e pw n salt).state.users
        = s.users ++ [{ id := s.nextUserId, email := e,
                        password := generate_password_hash pw salt, name := n }] ∧
      (register s Method.POST true e pw n salt).flashes = [Flash.registerSuccess] ∧
      (register s Method.POST true e pw n salt).response = Response.redirect "login") := by
  constructor
  · rintro ⟨u, hu, hue⟩
    have hne : s.users.find? (fun v => v.email == e) ≠ none := by
      intro hn
      have := List.find?_eq_none.mp hn u hu
      simp [hue] at this
    obtain ⟨w, hw⟩ : ∃ w, s.users.find? (fun v => v.email == e) = some w := by
      cases hfq : s.users.find? (fun v => v.email == e) with
      | none => exact absurd hfq hne
      | some w => exact ⟨w, rfl⟩
    simp [register, validate_on_submit, hw]
  · intro hall
    have hf : s.users.find? (fun v => v.email == e) = none :=
      List.find?_eq_none.mpr (fun v hv => by simpa using hall v hv)
    simp [register, validate_on_submit, hf]

/-- C6 witness: the two-user store; registering Alice's email again is
rejected with the store unchanged, registering a fresh email appends the
one new row. -/
theorem register_duplicate_email_rejected_witness :
    ((∃ u ∈ twoUserState.users, u.email = "alice@x.com") ∧
      register twoUserState Method.POST true "alice@x.com" "pw" "A2" "s2" =
        { flashes := [Flash.registerDuplicateEmail],
          response := Response.redirect "login", state := twoUserState }) ∧
    ((∀ u ∈ twoUserState.users, u.email ≠ "dora@x.com") ∧
      (register twoUserState Method.POST true "dora@x.com" "pw" "Dora" "s3").state.users
        = twoUserState.users ++ [dora]) :=
  ⟨⟨by decide,
    (register_duplicate_email_rejected twoUserState "alice@x.com" "pw" "A2" "s2").1
      (by decide)⟩,
   ⟨by decide,
    ((register_duplicate_email_rejected twoUserState "dora@x.com" "pw" "Dora" "s3").2
      (by decide)).1⟩⟩

/-- C9: hashing one password with two distinct salts (the source draws a
fresh random salt on every call) yields two distinct credentials, and the
password check accepts the password against both of them. -/
theorem hash_twice_distinct_verify_both (pw s1 s2 : String) (h : s1 ≠ s2) :
    generate_password_hash pw s1 ≠ generate_password_hash pw s2 ∧
    check_password_hash (generate_password_hash pw s1) pw = true ∧
    check_password_hash (generate_password_hash pw s2) pw = true := by
  refine ⟨fun hc => h (congrArg Credential.salt hc), ?_, ?_⟩ <;>
    simp [check_password_hash, generate_password_hash]

/-- C9 witness: one password, two concrete distinct salts. -/
theorem hash_twice_distinct_verify_both_witness :
    ("sa" : String) ≠ "sb" ∧
    (generate_password_hash "pw" "sa" ≠ generate_password_hash "pw" "sb" ∧
      check_password_hash (generate_password_hash "pw" "sa") "pw" = true ∧
      check_password_hash (generate_password_hash "pw" "sb") "pw" = true) :=
  ⟨by decide, hash_twice_distinct_verify_both "pw" "sa" "sb" (by decide)⟩

/-- Under a GET request the edit_post handler body leaves the store
unchanged: validate_on_submit is false for GET, so only the crash branch
(unknown id) or the render branch can run, and both keep the state. -/
theorem edit_post_get_state (s : DBState) (pid : Nat) (fv : Bool)
    (t sub iu b : String) (a : Option Nat) :
    (edit_post s pid Method.GET fv t sub iu b a).state = s := by
  simp only [edit_post]
  split
  · rfl
  · simp [validate_on_submit]

/-- The register handler never touches the blog_posts table. -/
theorem register_blog_posts_eq (s : DBState) (m : Method) (fv : Bool)
    (e pw n salt : String) :
    (register s m fv e pw n salt).state.blog_posts = s.blog_posts := by
  simp only [register]
  split
  · split <;> rfl
  · rfl

/-- The show_post handler never touches the blog_posts table. -/
theorem show_post_blog_posts_eq (s : DBState) (cu : Identity) (pid : Nat)
    (m : Method) (fv : Bool) (tx : String) :
    (show_post s cu pid m fv tx).state.blog_posts = s.blog_posts := by
  simp only [show_post]
  split
  · split <;> rfl
  · rfl

/-- The add_new_post handler preserves pairwise-distinct titles: the
unique constraint rejects a duplicate title, and a fresh title extends the
table with a title no existing row carries. -/
theorem add_new_post_uniqueTitles (s : DBState) (cu : Identity) (m : Method)
    (fv : Bool) (t sub b iu d : String) (h : uniqueTitles s) :
    uniqueTitles (add_new_post s cu m fv t sub b iu d).state := by
  simp only [add_new_post]
  split
  · split
    · exact h
    · split
      · exact h
      · rename_i hany
        unfold uniqueTitles at h ⊢
        rw [List.pairwise_append]
        refine ⟨h, List.pairwise_singleton _ _, ?_⟩
        intro p hp q hq
        simp only [List.mem_singleton] at hq
        subst hq
        intro hcon
        exact hany (List.any_eq_true.mpr ⟨p, hp, by simpa using hcon⟩)
  · exact h

/-- The delete_post handler preserves pairwise-distinct titles: it either
keeps the table or removes rows. -/
theorem delete_post_uniqueTitles (s : DBState) (pid : Nat)
    (h : uniqueTitles s) : uniqueTitles (delete_post s pid).state := by
  simp only [delete_post]
  split
  · exact h
  · exact List.Pairwise.sublist (List.filter_sublist _) h

/-- Every request preserves pairwise-distinct blog post titles. -/
theorem uniqueTitles_applyOp (s : DBState) (op : Op) (h : uniqueTitles s) :
    uniqueTitles (applyOp s op) := by
  cases op with
  | opRegister m fv e pw n salt =>
      unfold uniqueTitles at h ⊢
      rw [applyOp, register_blog_posts_eq]
      exact h
  | opShowPost cu pid m fv tx =>
      unfold uniqueTitles at h ⊢
      rw [applyOp, show_post_blog_posts_eq]
      exact h
  | opAddNewPost cu m fv t sub b iu d =>
      rw [applyOp]
      exact add_new_post_uniqueTitles s cu m fv t sub b iu d h
  | opEditPost cu pid fv t sub iu b a =>
      cases cu with
      | anonymous => exact h
      | authenticated i =>
          by_cases hi : i = 1
          · subst hi
            simpa [applyOp, admin_required, guardResponse, edit_post_get_state]
              using h
          · simpa [applyOp, admin_required, guardResponse, hi] using h
  | opDeletePost cu pid =>
      cases cu with
      | anonymous => exact h
      | authenticated i =>
          by_cases hi : i = 1
          · subst hi
            simpa [applyOp, admin_required, guardResponse]
              using delete_post_uniqueTitles s pid h
          · simpa [applyOp, admin_required, guardResponse, hi] using h

/-- Every reachable store state has pairwise-distinct blog post titles. -/
theorem uniqueTitles_reachable (s : DBState) (h : Reachable s) :
    uniqueTitles s := by
  induction h with
  | init => simp [uniqueTitles, initialState]
  | step op hr ih => exact uniqueTitles_applyOp _ op ih

/-- In a table with pairwise-distinct titles, a title that occurs, occurs
on exactly one row. -/
theorem countTitle_one (l : List BlogPost) (t : String) (p : BlogPost)
    (hu : l.Pairwise (fun a b => a.title ≠ b.title)) (hp : p ∈ l)
    (ht : p.title = t) :
    (l.filter (fun q => q.title == t)).length = 1 := by
  induction l with
  | nil => cases hp
  | cons q l ih =>
      rw [List.pairwise_cons] at hu
      obtain ⟨hq, hl⟩ := hu
      rcases List.mem_cons.mp hp with rfl | hpl
      · have h1 : (p.title == t) = true := by simpa using ht
        have h2 : l.filter (fun q => q.title == t) = [] := by
          rw [List.filter_eq_nil_iff]
          intro r hr
          have hne := hq r hr
          simp only [beq_iff_eq]
          intro hrt
          exact hne (ht.trans hrt.symm)
        simp [List.filter_cons, h1, h2]
      · have hqt : (q.title == t) = false := by
          have hne := hq p hpl
          simp only [beq_eq_false_iff_ne, ne_eq]
          intro hq2
          exact hne (hq2.trans ht.symm)
        simp [List.filter_cons, hqt, ih hl hpl]

/-- C10: the /edit-post/<id> route is registered for GET requests only,
and dispatching it under any accepted method leaves the store unchanged:
a non-admin identity is aborted by the guard before the handler runs, and
for the admin the GET request makes validate_on_submit false, so the
form-submission branch is never taken and no post edit is persisted. -/
theorem edit_post_route_never_writes :
    edit_post_methods = [Method.GET] ∧
    ∀ (s : DBState) (cu : Identity) (pid : Nat) (m : Method) (fv : Bool)
      (t sub iu b : String) (a : Option Nat),
      m ∈ edit_post_methods →
      (guardResponse (admin_required cu
          (fun _ => edit_post s pid m fv t sub iu b a)) s).state = s := by
  refine ⟨rfl, ?_⟩
  intro s cu pid m fv t sub iu b a hm
  have hmg : m = Method.GET := by
    simpa [edit_post_methods] using hm
  subst hmg
  cases cu with
  | anonymous => rfl
  | authenticated i =>
      by_cases hi : i = 1
      · subst hi
        simp [admin_required, guardResponse, edit_post_get_state]
      · simp [admin_required, guardResponse, hi]

/-- C10 witness: the admin dispatches a GET with validating fields on the
store holding post 1; the store is unchanged. -/
theorem edit_post_route_never_writes_witness :
    Method.GET ∈ edit_post_methods ∧
    (guardResponse (admin_required (Identity.authenticated 1)
        (fun _ => edit_post onePostState 1 Method.GET true
          "T2" "S2" "I2" "B2" (some 1))) onePostState).state = onePostState :=
  ⟨by decide,
   edit_post_route_never_writes.2 onePostState (Identity.authenticated 1) 1
     Method.GET true "T2" "S2" "I2" "B2" (some 1) (by decide)⟩

/-- C8: in every reachable store state the blog post titles are pairwise
distinct, and a validated new-post submission by any authenticated
identity whose title equals an existing post's title fails — the commit
violates the unique constraint on the title column and raises — leaving
the store unchanged with exactly one post carrying that title. (An
anonymous submission fails even earlier, at the BlogPost constructor,
likewise inserting nothing.) -/
theorem blog_post_titles_globally_unique (s : DBState) (hs : Reachable s) :
    uniqueTitles s ∧
    ∀ (i : Nat) (sub b iu d : String) (p : BlogPost),
      p ∈ s.blog_posts →
      (add_new_post s (Identity.authenticated i) Method.POST true
          p.title sub b iu d).response
        = Response.serverError
            "IntegrityError: UNIQUE constraint failed: blog_posts.title" ∧
      (add_new_post s (Identity.authenticated i) Method.POST true
          p.title sub b iu d).state = s ∧
      countTitle (add_new_post s (Identity.authenticated i) Method.POST true
          p.title sub b iu d).state p.title = 1 := by
  have hu := uniqueTitles_reachable s hs
  refine ⟨hu, ?_⟩
  intro i sub b iu d p hp
  have hany : s.blog_posts.any (fun q => q.title == p.title) = true :=
    List.any_eq_true.mpr ⟨p, hp, by simp⟩
  have hst : (add_new_post s (Identity.authenticated i) Method.POST true
      p.title sub b iu d).state = s := by
    simp [add_new_post, validate_on_submit, hany]
  refine ⟨by simp [add_new_post, validate_on_submit, hany], hst, ?_⟩
  rw [hst]
  unfold countTitle
  exact countTitle_one s.blog_posts p.title p hu hp rfl

/-- C8 witness: the store reached by registering Alice and creating the
Hello World post under her identity; a second validated submission with
the same title leaves the store unchanged with one post of that title. -/
theorem blog_post_titles_globally_unique_witness :
    Reachable helloState ∧
    helloPost ∈ helloState.blog_posts ∧
    uniqueTitles helloState ∧
    (add_new_post helloState (Identity.authenticated 1) Method.POST true
        "Hello World" "S2" "B2" "I2" "D2").state = helloState ∧
    countTitle (add_new_post helloState (Identity.authenticated 1) Method.POST true
        "Hello World" "S2" "B2" "I2" "D2").state "Hello World" = 1 := by
  have hr : Reachable helloState :=
    Reachable.step helloOp (Reachable.step registerAliceOp Reachable.init)
  have h := blog_post_titles_globally_unique helloState hr
  have hm : helloPost ∈ helloState.blog_posts := by decide
  have h2 := h.2 1 "S2" "B2" "I2" "D2" helloPost hm
  exact ⟨hr, hm, h.1, h2.2.1, h2.2.2⟩

end Blog2
